import Mathlib

/-!
# GenomeGist — verification of the variant-extraction pipeline

Shallow embedding of the GenomeGist sources:
* the AncestryDNA line parser (`src/parser/ancestry`: `parseAncestry`,
  `parseDataLine`, `isValidChromosome`, `normalizeChromosome`, `combineAlleles`),
* the extraction engine (`src/extractor`: `extractVariants`, `estimateMatches`,
  `createGenomeLookup`),
* the output serializer (`src/output/yaml`: `toYAML` with its three formats),
* the license/session client state transitions of `src/main`
  (`checkLicense` failure results, the stored-key revalidation callback of
  `init`, and `clearToken`).

JavaScript strings are modelled as Lean `String`, JS numbers for genomic
positions as `Int`, `Map` as a function `String → Option _`, thrown
`ParseError`s as `Except`, and the wall clock as an explicit `now` argument
passed to exactly those functions that call `new Date()` in the source.
-/

namespace GenomeGist

/-! ## JavaScript string primitives

The source uses `String.prototype.split`, `trim`, `toLowerCase`,
`toUpperCase`, `startsWith`, `slice` and `Array.prototype.join`.  They are
modelled at the character-list level so that every definition is structurally
recursive and kernel-evaluable. -/

/-- JS `s.split(sep)` for a one-character separator (splitting on `'\t'`). -/
def splitCharAux (sep : Char) : List Char → List (List Char)
  | [] => [[]]
  | c :: rest =>
    match splitCharAux sep rest with
    | [] => [[]]
    | g :: gs => if c = sep then [] :: g :: gs else (c :: g) :: gs

/-- JS `line.split('\t')` and friends. -/
def jsSplit (sep : Char) (s : String) : List String :=
  (splitCharAux sep s.data).map String.mk

/-- JS `content.split(/\r?\n/)`: a line break is `"\r\n"` or `"\n"`. -/
def splitLinesAux : List Char → List (List Char)
  | [] => [[]]
  | '\r' :: '\n' :: rest => [] :: splitLinesAux rest
  | '\n' :: rest => [] :: splitLinesAux rest
  | c :: rest =>
    match splitLinesAux rest with
    | [] => [[]]
    | g :: gs => (c :: g) :: gs

/-- JS `content.split(/\r?\n/)` on strings. -/
def jsSplitLines (s : String) : List String :=
  (splitLinesAux s.data).map String.mk

/-- JS `s.trim()`: strip leading and trailing whitespace. -/
def jsTrim (s : String) : String :=
  String.mk (((s.data.dropWhile Char.isWhitespace).reverse.dropWhile Char.isWhitespace).reverse)

/-- JS `s.toLowerCase()` (ASCII, as used on rsids and header lines). -/
def jsToLower (s : String) : String := String.mk (s.data.map Char.toLower)

/-- JS `s.toUpperCase()` (ASCII, as used on chromosomes and alleles). -/
def jsToUpper (s : String) : String := String.mk (s.data.map Char.toUpper)

/-- JS `s.startsWith(p)`. -/
def jsStartsWith (s p : String) : Bool := p.data.isPrefixOf s.data

/-- JS `s.slice(0, n)`. -/
def jsTake (s : String) (n : Nat) : String := String.mk (s.data.take n)

/-- JS `arr.join(sep)`. -/
def jsJoin (sep : String) : List String → String
  | [] => ""
  | [x] => x
  | x :: y :: xs => x ++ sep ++ jsJoin sep (y :: xs)

/-- JS `parseInt(s, 10)`: skip leading whitespace, optional sign, then the
longest digit run; `none` when no digit follows (`NaN`). -/
def jsParseInt (s : String) : Option Int :=
  let cs := s.data.dropWhile Char.isWhitespace
  match cs with
  | '-' :: rest => (digitsVal rest).map (fun n => -(n : Int))
  | '+' :: rest => (digitsVal rest).map (fun n => (n : Int))
  | rest => (digitsVal rest).map (fun n => (n : Int))
where
  digitsVal (cs : List Char) : Option Nat :=
    let ds := cs.takeWhile Char.isDigit
    if ds.isEmpty then none
    else some (ds.foldl (fun acc c => 10 * acc + (c.toNat - '0'.toNat)) 0)

/-! ## Data model (`src/types.ts`) -/

deriving instance DecidableEq for Except

/-- `SNPCategory` — the closed category enum of `src/types.ts`. -/
inductive SNPCategory where
  | methylation
  | detoxification
  | cardiovascular
  | pharmacogenomics
  | neurotransmitters
  | immune
  | nutrition
  | other
deriving DecidableEq, Repr

/-- `ALL_CATEGORIES` — every member of the category enum, in declaration
order (mirrors the generated constant used by `estimateMatches`). -/
def ALL_CATEGORIES : List SNPCategory :=
  [.methylation, .detoxification, .cardiovascular, .pharmacogenomics,
   .neurotransmitters, .immune, .nutrition, .other]

/-- The category's string form, as it appears in catalog JSON and output. -/
def categoryName : SNPCategory → String
  | .methylation => "methylation"
  | .detoxification => "detoxification"
  | .cardiovascular => "cardiovascular"
  | .pharmacogenomics => "pharmacogenomics"
  | .neurotransmitters => "neurotransmitters"
  | .immune => "immune"
  | .nutrition => "nutrition"
  | .other => "other"

/-- `GenomeFormat` of `src/types.ts`. -/
inductive GenomeFormat where
  | andme_v5
  | andme_v4
  | andme_v3
  | ancestry
  | unknown
deriving DecidableEq, Repr

/-- `GenomeVariant` — one normalized row of a parsed genome file. -/
structure GenomeVariant where
  rsid : String
  chromosome : String
  position : Int
  genotype : String
deriving DecidableEq, Repr

/-- `SNPEntry` — one catalog entry.  The source field `annotation` is named
`annot` here; `riskAllele`, `chromosome` and `position` are optional
validation fields never read by the extractor or serializer and are omitted. -/
structure SNPEntry where
  rsid : String
  gene : String
  category : SNPCategory
  annot : String
  sources : List String
deriving DecidableEq, Repr

/-- `SNPList` — the reference catalog. -/
structure SNPList where
  version : String
  generatedAt : String
  count : Nat
  variants : List SNPEntry
deriving DecidableEq, Repr

/-- `ParseResult` of `src/types.ts`.  The opportunistic `generatedAt`/`build`
metadata scraped from comment lines is not modelled (no claim concerns it);
the optional `warnings` array is `[]` when absent. -/
structure ParseResult where
  format : GenomeFormat
  variants : List GenomeVariant
  warnings : List String := []
deriving DecidableEq, Repr

/-- `ParseError` of `src/types.ts` (`message`, optional `line`, optional
`details`), thrown in the source, an `Except` error value here. -/
structure ParseError where
  message : String
  line : Option Nat := none
  details : Option String := none
deriving DecidableEq, Repr

/-- `MatchedVariant`: catalog fields plus observed genotype and status
(`"found"` or `"no-call"`, the source's string literal union). -/
structure MatchedVariant where
  rsid : String
  gene : String
  genotype : String
  category : SNPCategory
  annot : String
  sources : List String
  status : String
deriving DecidableEq, Repr

/-- `MissingVariant`: catalog identity plus reason (`"not-in-file"`). -/
structure MissingVariant where
  rsid : String
  gene : String
  category : SNPCategory
  reason : String
deriving DecidableEq, Repr

/-- `ExtractionMetadata` of `src/types.ts` (with the optional
`categoriesIncluded` of the extractor's metadata block). -/
structure ExtractionMetadata where
  tool : String
  version : String
  date : String
  sourceFormat : GenomeFormat
  sourceVariantCount : Nat
  snpListVersion : String
  disclaimer : String
  categoriesIncluded : Option (List SNPCategory)
deriving DecidableEq, Repr

/-- The `summary` block of an `ExtractionResult`. -/
structure ExtractionSummary where
  found : Nat
  noCall : Nat
  missing : Nat
  total : Nat
deriving DecidableEq, Repr

/-- `ExtractionResult` of `src/types.ts`. -/
structure ExtractionResult where
  metadata : ExtractionMetadata
  variants : List MatchedVariant
  missing : List MissingVariant
  summary : ExtractionSummary
deriving DecidableEq, Repr

/-- `OutputFormat` of `src/types.ts`. -/
inductive OutputFormat where
  | detailed
  | compact
  | minimal
deriving DecidableEq, Repr

/-! ## AncestryDNA parser (`src/parser/ancestry.ts`) -/

/-- `isValidChromosome`: the source tests
`/^[1-9]$|^1[0-9]$|^2[0-2]$/` (autosomes 1–22, written out here), the numeric
sex/mitochondrial codes 23–26, and the standard names X/Y/MT/M. -/
def isValidChromosome (chr : String) : Bool :=
  ["1", "2", "3", "4", "5", "6", "7", "8", "9", "10", "11",
   "12", "13", "14", "15", "16", "17", "18", "19", "20", "21", "22"].contains chr
  || chr == "23" || chr == "24"
  || chr == "25" || chr == "26"
  || ["X", "Y", "MT", "M"].contains (jsToUpper chr)

/-- `normalizeChromosome`: AncestryDNA numeric codes to canonical names. -/
def normalizeChromosome (chr : String) : String :=
  if chr = "23" then "X"
  else if chr = "24" then "Y"
  else if chr = "25" then "MT"
  else if chr = "26" then "MT"
  else
    let upper := jsToUpper chr
    if upper = "M" then "MT" else upper

/-- The source's `/^[ACGT]$/` test. -/
def isACGT (s : String) : Bool := s == "A" || s == "C" || s == "G" || s == "T"

/-- The source's `/^[DI]$/` test (insertion/deletion alleles). -/
def isDI (s : String) : Bool := s == "D" || s == "I"

/-- `combineAlleles`: combine the two AncestryDNA allele columns into one
genotype; `'0'` or `'-'` on either side is a no-call (`"--"`); D/I pairs and
nucleotide pairs are concatenated in the given order. -/
def combineAlleles (allele1 allele2 : String) : Option String :=
  let a1 := jsToUpper (jsTrim allele1)
  let a2 := jsToUpper (jsTrim allele2)
  if a1 = "0" ∨ a1 = "-" ∨ a2 = "0" ∨ a2 = "-" then some "--"
  else if ¬ (isACGT a1 = true) ∨ ¬ (isACGT a2 = true) then
    if isDI a1 = true ∧ isDI a2 = true then some (a1 ++ a2) else none
  else some (a1 ++ a2)

/-- `parseDataLine`: parse one tab-separated
`rsid\tchromosome\tposition\tallele1\tallele2` data line, validating each
field in source order; `none` mirrors the source's `null`. -/
def parseDataLine (line : String) : Option GenomeVariant :=
  match jsSplit '\t' line with
  | rsid :: chromosome :: positionStr :: allele1 :: allele2 :: _ =>
    if rsid = "" ∨ ¬ (jsStartsWith rsid "rs" = true ∨ jsStartsWith rsid "i" = true) then none
    else if chromosome = "" ∨ ¬ (isValidChromosome chromosome = true) then none
    else
      match jsParseInt positionStr with
      | none => none
      | some position =>
        if position ≤ 0 then none
        else if allele1 = "" ∨ allele2 = "" then none
        else
          match combineAlleles allele1 allele2 with
          | none => none
          | some genotype =>
            some { rsid := jsToLower rsid
                   chromosome := normalizeChromosome chromosome
                   position := position
                   genotype := genotype }
  | _ => none

/-- Internal `ParseWarning` tracking of the ancestry parser (message, 1-based
line number, truncated line content). -/
structure ParseWarning where
  message : String
  line : Nat
  details : String
deriving DecidableEq, Repr

/-- One step of the parser's main loop, classifying a raw line:
skip blank lines, `#` comments and the `rsid\t…` header, collect parsed
variants, and record a warning for unparsable lines that do not begin with
`rsid`.  The list is processed in file order. -/
def scanLines : List (Nat × String) → List GenomeVariant × List ParseWarning
  | [] => ([], [])
  | (i, line) :: rest =>
    let (vs, ws) := scanLines rest
    if line = "" then (vs, ws)
    else
      let trimmed := jsTrim line
      if trimmed = "" then (vs, ws)
      else if jsStartsWith trimmed "#" then (vs, ws)
      else if jsStartsWith (jsToLower trimmed) "rsid\t" then (vs, ws)
      else
        match parseDataLine trimmed with
        | some v => (v :: vs, ws)
        | none =>
          if trimmed.length > 0 ∧ ¬ (jsStartsWith trimmed "rsid" = true) then
            (vs, { message := "Failed to parse line", line := i + 1,
                   details := jsTake trimmed 100 } :: ws)
          else (vs, ws)

/-- The aggregated warning message the parser surfaces
(`"${n} line(s) could not be parsed"`). -/
def warningMessage (n : Nat) : String :=
  toString n ++ " line" ++ (if n = 1 then "" else "s") ++ " could not be parsed"

/-- `parseAncestry`: split into lines, scan them, fail with the
`no-valid-variants` `ParseError` when nothing parsed, otherwise return the
result with an aggregated warning when some lines failed. -/
def parseAncestry (content : String) : Except ParseError ParseResult :=
  let lines := jsSplitLines content
  let scanned := scanLines lines.enum
  if scanned.1 = [] then
    .error { message := "No valid variants found in file. Please check the file format." }
  else
    .ok { format := .ancestry
          variants := scanned.1
          warnings := if scanned.2 = [] then [] else [warningMessage scanned.2.length] }

/-! ## Extraction engine (`src/extractor`, `src/unnamed/part_005`) -/

/-- `TOOL_NAME` of `src/version`. -/
def TOOL_NAME : String := "GenomeGist"

/-- `VERSION` of `src/version`. -/
def VERSION : String := "1.0.0"

/-- The full-report `DISCLAIMER` constant of the extractor. -/
def DISCLAIMER : String :=
  "DISCLAIMER: This file contains genetic information extracted for research and educational purposes only. This is NOT medical advice. Genetic variants may have different effects depending on other genetic and environmental factors. Consult a healthcare provider or genetic counselor for interpretation of genetic data. The annotations are derived from public databases and may not reflect the most current scientific understanding."

/-- `createGenomeLookup`: build the rsid index as a `Map`; `lookup.set`
lowercases the key and overwrites any earlier binding (the JS `Map` is a
function `String → Option GenomeVariant` here). -/
def createGenomeLookup (variants : List GenomeVariant) : String → Option GenomeVariant :=
  variants.foldl
    (fun lookup variant k =>
      if k = jsToLower variant.rsid then some variant else lookup k)
    (fun _ => none)

/-- The body of `extractVariants`' single pass over the filtered catalog
entries, in file order: classify each entry through the index and collect the
matched list, missing list and the found / no-call tallies. -/
def extractLoop (lookup : String → Option GenomeVariant) :
    List SNPEntry → List MatchedVariant × List MissingVariant × Nat × Nat
  | [] => ([], [], 0, 0)
  | snpEntry :: rest =>
    let (matched, missing, foundCount, noCallCount) := extractLoop lookup rest
    match lookup (jsToLower snpEntry.rsid) with
    | some genomeVariant =>
      let isNoCall := genomeVariant.genotype = "--"
      ({ rsid := snpEntry.rsid
         gene := snpEntry.gene
         genotype := genomeVariant.genotype
         category := snpEntry.category
         annot := snpEntry.annot
         sources := snpEntry.sources
         status := if isNoCall then "no-call" else "found" } :: matched,
       missing,
       if isNoCall then foundCount else foundCount + 1,
       if isNoCall then noCallCount + 1 else noCallCount)
    | none =>
      (matched,
       { rsid := snpEntry.rsid
         gene := snpEntry.gene
         category := snpEntry.category
         reason := "not-in-file" } :: missing,
       foundCount, noCallCount)

/-- The category filter applied to the catalog: entries restricted to the
requested categories, or all entries when the filter is unset
(JS `Array.includes` is propositional membership on the closed enum). -/
def filteredVariants (snpList : SNPList) : Option (List SNPCategory) → List SNPEntry
  | some categoryFilter => snpList.variants.filter (fun v => decide (v.category ∈ categoryFilter))
  | none => snpList.variants

/-- `extractVariants(parseResult, snpList, categoryFilter?)`.  The source
stamps `metadata.date` with `new Date().toISOString()`; that clock read is the
explicit `now` argument. -/
def extractVariants (now : String) (parseResult : ParseResult) (snpList : SNPList)
    (categoryFilter : Option (List SNPCategory)) : ExtractionResult :=
  let genomeLookup := createGenomeLookup parseResult.variants
  let filtered := filteredVariants snpList categoryFilter
  let (matched, missing, foundCount, noCallCount) := extractLoop genomeLookup filtered
  { metadata :=
      { tool := TOOL_NAME
        version := VERSION
        date := now
        sourceFormat := parseResult.format
        sourceVariantCount := parseResult.variants.length
        snpListVersion := snpList.version
        disclaimer := DISCLAIMER
        categoriesIncluded := categoryFilter }
    variants := matched
    missing := missing
    summary :=
      { found := foundCount
        noCall := noCallCount
        missing := missing.length
        total := filtered.length } }

/-- `CategoryMatchEstimate`: the preview's aggregate counts; the JS record
keyed by the category enum is a function here. -/
structure CategoryMatchEstimate where
  total : Nat
  byCategory : SNPCategory → Nat

/-- The tally loop of `estimateMatches`: skip entries whose category is not in
the filter, and bump the entry's category count when the rsid index contains
the (lowercased) rsid. -/
def estimateFold (lookup : String → Option GenomeVariant) (categories : List SNPCategory) :
    List SNPEntry → SNPCategory → Nat
  | [] => fun _ => 0
  | snpEntry :: rest =>
    let byCategory := estimateFold lookup categories rest
    if ¬ (snpEntry.category ∈ categories) then byCategory
    else if (lookup (jsToLower snpEntry.rsid)).isSome then
      fun c => if c = snpEntry.category then byCategory c + 1 else byCategory c
    else byCategory

/-- `estimateMatches(parseResult, snpList, categoryFilter?)`: rebuild the
index, tally per category over the whole catalog, and report the sum over the
category record's values as `total`. -/
def estimateMatches (parseResult : ParseResult) (snpList : SNPList)
    (categoryFilter : Option (List SNPCategory)) : CategoryMatchEstimate :=
  let genomeLookup := createGenomeLookup parseResult.variants
  let categories := categoryFilter.getD ALL_CATEGORIES
  let byCategory := estimateFold genomeLookup categories snpList.variants
  { total := (ALL_CATEGORIES.map byCategory).sum
    byCategory := byCategory }

/-! ## License/session client state (`src/main.ts`, `src/unnamed/part_006`) -/

/-- `Tier` of `src/types.ts`. -/
inductive Tier where
  | free
  | full
deriving DecidableEq, Repr

/-- `TIER_REQUIRES_LICENSE` of `src/types.ts`. -/
def TIER_REQUIRES_LICENSE : Tier → Bool
  | .free => false
  | .full => true

/-- The module-level license/session state of `src/main.ts` (the fields
touched by `checkLicense` handling and `clearToken`; UI-only state is
omitted). -/
structure ClientState where
  storedToken : Option String
  sessionsRemaining : Option Nat
  sessionExpiresAt : Option String
  hasActiveSession : Bool
  licenseValidated : Bool
  paidSnpListCached : Bool
  selectedTier : Tier
deriving DecidableEq, Repr

/-- `CheckLicenseResult`: the non-consuming `/api/check-license` response. -/
structure CheckLicenseResult where
  valid : Bool
  sessionsRemaining : Option Nat := none
  hasActiveSession : Option Bool := none
  sessionExpiresAt : Option String := none
  error : Option String := none
deriving DecidableEq, Repr

/-- The result `checkLicense` produces when the fetch fails or the response
status is not OK: `{ valid: false, error: 'network_error' }`. -/
def networkErrorResult : CheckLicenseResult :=
  { valid := false, error := some "network_error" }

/-- `clearToken()`: wipe the stored key and every session field, drop the
cached premium catalog, and fall back to the free tier when the selected tier
requires a license. -/
def clearToken (s : ClientState) : ClientState :=
  { storedToken := none
    sessionsRemaining := none
    sessionExpiresAt := none
    hasActiveSession := false
    licenseValidated := false
    paidSnpListCached := false
    selectedTier := if TIER_REQUIRES_LICENSE s.selectedTier then .free else s.selectedTier }

/-- The continuation `init` attaches to the background `checkLicense` of a
stored key: drop the response if the stored key changed meanwhile; on a valid
response adopt the session fields and mark the license validated; on ANY
invalid response (the source comment reads "Stored license is no longer
valid, clear it") call `clearToken`. -/
def initRevalidate (tokenBeingValidated : String) (s : ClientState)
    (result : CheckLicenseResult) : ClientState :=
  if s.storedToken ≠ some tokenBeingValidated then s
  else if result.valid then
    { s with
      sessionsRemaining := result.sessionsRemaining
      hasActiveSession := result.hasActiveSession.getD false
      sessionExpiresAt := result.sessionExpiresAt
      licenseValidated := true }
  else clearToken s

/-- The module state right after `init` restores a saved key from
`localStorage` (before the background validation responds): key present, full
tier auto-selected, nothing validated yet. -/
def restoredState (savedToken : String) : ClientState :=
  { storedToken := some savedToken
    sessionsRemaining := none
    sessionExpiresAt := none
    hasActiveSession := false
    licenseValidated := false
    paidSnpListCached := false
    selectedTier := .full }

/-! ## Output serializer (`src/output/yaml.ts`)

The detailed and compact formats go through `js-yaml`'s `dump` with
`sortKeys: false` (insertion order preserved).  The dump of the fixed output
shapes is modelled directly as block-style YAML text with plain one-line
scalars; `js-yaml`'s quoting/folding of special-character or over-long
scalars is not modelled, and a `categories_included` key holding JS
`undefined` (unset category filter) is omitted from the dump.  The minimal
format is built by hand in the source and is modelled verbatim. -/

/-- The fixed short disclaimer of the compact and minimal formats. -/
def COMPACT_DISCLAIMER : String :=
  "For research/educational use only. Not medical advice."

/-- `formatDateOnly`: `isoDate.slice(0, 10)`. -/
def formatDateOnly (isoDate : String) : String := jsTake isoDate 10

/-- The wire string of a `GenomeFormat` (the TS string-literal values). -/
def formatName : GenomeFormat → String
  | .andme_v5 => "23andme-v5"
  | .andme_v4 => "23andme-v4"
  | .andme_v3 => "23andme-v3"
  | .ancestry => "ancestry"
  | .unknown => "unknown"

/-- Concatenation of emitted blocks. -/
def strConcat : List String → String
  | [] => ""
  | x :: xs => x ++ strConcat xs

/-- A top-level YAML sequence: `key: []` when empty, else one block per item. -/
def listSection (key : String) (blocks : List String) : String :=
  if blocks = [] then key ++ ": []\n" else key ++ ":\n" ++ strConcat blocks

/-- One matched variant of the detailed format: rsid, gene, genotype,
category, annotation, and a `status` line only for a no-call (the source
assigns `status` after building the literal, so it dumps last). -/
def detailedVariantBlock (v : MatchedVariant) : String :=
  "  - rsid: " ++ v.rsid ++ "\n" ++
  "    gene: " ++ v.gene ++ "\n" ++
  "    genotype: " ++ v.genotype ++ "\n" ++
  "    category: " ++ categoryName v.category ++ "\n" ++
  "    annotation: " ++ v.annot ++ "\n" ++
  (if v.status = "no-call" then "    status: no-call\n" else "")

/-- One entry of the detailed format's `missing_variants` section. -/
def detailedMissingBlock (m : MissingVariant) : String :=
  "  - rsid: " ++ m.rsid ++ "\n" ++
  "    gene: " ++ m.gene ++ "\n" ++
  "    category: " ++ categoryName m.category ++ "\n" ++
  "    reason: " ++ m.reason ++ "\n"

/-- The `categories_included` metadata entry (omitted when the filter was
unset, i.e. the JS value is `undefined`). -/
def categoriesBlock : Option (List SNPCategory) → String
  | none => ""
  | some [] => "  categories_included: []\n"
  | some cats =>
    "  categories_included:\n" ++
      strConcat (cats.map (fun c => "    - " ++ categoryName c ++ "\n"))

/-- The detailed format's metadata block, keys in source insertion order. -/
def detailedMeta (md : ExtractionMetadata) : String :=
  "metadata:\n" ++
  "  tool: " ++ md.tool ++ "\n" ++
  "  version: " ++ md.version ++ "\n" ++
  "  extraction_date: " ++ md.date ++ "\n" ++
  "  source_format: " ++ formatName md.sourceFormat ++ "\n" ++
  "  source_variant_count: " ++ toString md.sourceVariantCount ++ "\n" ++
  "  snp_list_version: " ++ md.snpListVersion ++ "\n" ++
  categoriesBlock md.categoriesIncluded ++
  "  disclaimer: " ++ md.disclaimer ++ "\n"

/-- The detailed format's summary block. -/
def summaryBlock (s : ExtractionSummary) : String :=
  "summary:\n" ++
  "  variants_found: " ++ toString s.found ++ "\n" ++
  "  variants_no_call: " ++ toString s.noCall ++ "\n" ++
  "  variants_missing: " ++ toString s.missing ++ "\n" ++
  "  total_in_snp_list: " ++ toString s.total ++ "\n"

/-- `toDetailedYAML`: metadata, summary, matched variants, and a
`missing_variants` section only when some entries are missing. -/
def toDetailedYAML (result : ExtractionResult) : String :=
  detailedMeta result.metadata ++
  summaryBlock result.summary ++
  listSection "variants" (result.variants.map detailedVariantBlock) ++
  (if result.missing = [] then ""
   else "missing_variants:\n" ++ strConcat (result.missing.map detailedMissingBlock))

/-- One matched variant of the compact format: rsid, gene, genotype. -/
def compactVariantBlock (v : MatchedVariant) : String :=
  "  - rsid: " ++ v.rsid ++ "\n" ++
  "    gene: " ++ v.gene ++ "\n" ++
  "    genotype: " ++ v.genotype ++ "\n"

/-- The compact format's shortened metadata block (date-only timestamp, fixed
short disclaimer). -/
def compactMeta (md : ExtractionMetadata) : String :=
  "metadata:\n" ++
  "  tool: " ++ md.tool ++ "\n" ++
  "  version: " ++ md.version ++ "\n" ++
  "  date: " ++ formatDateOnly md.date ++ "\n" ++
  "  format: " ++ formatName md.sourceFormat ++ "\n" ++
  "  disclaimer: " ++ COMPACT_DISCLAIMER ++ "\n"

/-- `toCompactYAML`: shortened metadata, reduced variants, and a bare rsid
list of missing entries only when some are missing. -/
def toCompactYAML (result : ExtractionResult) : String :=
  compactMeta result.metadata ++
  listSection "variants" (result.variants.map compactVariantBlock) ++
  (if result.missing = [] then ""
   else "missing:\n" ++ strConcat (result.missing.map (fun m => "  - " ++ m.rsid ++ "\n")))

/-- `toMinimalCSV`: comment header with tool, version, date and short
disclaimer, a column-header comment, one `rsid,gene,genotype` row per matched
variant, and an optional trailing comment of missing rsids; the line array is
joined with `'\n'` and a final newline appended. -/
def toMinimalCSV (result : ExtractionResult) : String :=
  let lines :=
    ["# " ++ result.metadata.tool ++ " v" ++ result.metadata.version ++ " | " ++
       formatDateOnly result.metadata.date ++ " | " ++ COMPACT_DISCLAIMER,
     "# rsid,gene,genotype"] ++
    result.variants.map (fun v => v.rsid ++ "," ++ v.gene ++ "," ++ v.genotype) ++
    (if result.missing = [] then []
     else ["# missing: " ++ jsJoin "," (result.missing.map (fun m => m.rsid))])
  jsJoin "\n" lines ++ "\n"

/-- `toYAML(result, format)` — the serializer's format dispatch. -/
def toYAML (result : ExtractionResult) (format : OutputFormat) : String :=
  match format with
  | .detailed => toDetailedYAML result
  | .compact => toCompactYAML result
  | .minimal => toMinimalCSV result

/-- Invoking the serializer when the ambient wall clock reads `clockNow`:
`toYAML` performs no clock read (`new Date()` never occurs in it), so the
clock argument is passed but not consumed. -/
def serializeAt (_clockNow : String) (result : ExtractionResult)
    (format : OutputFormat) : String :=
  toYAML result format

/-! ## Characterizations of the extraction engine -/

/-- The matched record the extractor builds for catalog entry `e` matched
against genome row `g`. -/
def mkMatched (e : SNPEntry) (g : GenomeVariant) : MatchedVariant :=
  { rsid := e.rsid
    gene := e.gene
    genotype := g.genotype
    category := e.category
    annot := e.annot
    sources := e.sources
    status := if g.genotype = "--" then "no-call" else "found" }

/-- The missing record the extractor builds for an entry absent from file. -/
def mkMissing (e : SNPEntry) : MissingVariant :=
  { rsid := e.rsid, gene := e.gene, category := e.category, reason := "not-in-file" }

/-- Whether the index holds entry `e`'s rsid with a non-no-call genotype. -/
def foundPred (lookup : String → Option GenomeVariant) (e : SNPEntry) : Bool :=
  match lookup (jsToLower e.rsid) with
  | some g => !(g.genotype == "--")
  | none => false

/-- Whether the index holds entry `e`'s rsid with the `"--"` genotype. -/
def noCallPred (lookup : String → Option GenomeVariant) (e : SNPEntry) : Bool :=
  match lookup (jsToLower e.rsid) with
  | some g => g.genotype == "--"
  | none => false

/-- Whether the index holds entry `e`'s rsid at all. -/
def presentPred (lookup : String → Option GenomeVariant) (e : SNPEntry) : Bool :=
  (lookup (jsToLower e.rsid)).isSome

theorem extractLoop_matched (lookup : String → Option GenomeVariant) (es : List SNPEntry) :
    (extractLoop lookup es).1 =
      es.filterMap (fun e => (lookup (jsToLower e.rsid)).map (mkMatched e)) := by
  induction es with
  | nil => rfl
  | cons e rest ih =>
    cases h : lookup (jsToLower e.rsid) with
    | none => simp [extractLoop, h, List.filterMap_cons, ih]
    | some g => simp [extractLoop, h, List.filterMap_cons, ih, mkMatched]

theorem extractLoop_missing (lookup : String → Option GenomeVariant) (es : List SNPEntry) :
    (extractLoop lookup es).2.1 =
      (es.filter (fun e => (lookup (jsToLower e.rsid)).isNone)).map mkMissing := by
  induction es with
  | nil => rfl
  | cons e rest ih =>
    cases h : lookup (jsToLower e.rsid) with
    | none => simp [extractLoop, h, List.filter_cons, ih, mkMissing]
    | some g => simp [extractLoop, h, List.filter_cons, ih]

theorem extractLoop_found (lookup : String → Option GenomeVariant) (es : List SNPEntry) :
    (extractLoop lookup es).2.2.1 = es.countP (foundPred lookup) := by
  induction es with
  | nil => rfl
  | cons e rest ih =>
    cases h : lookup (jsToLower e.rsid) with
    | none => simp [extractLoop, h, List.countP_cons, foundPred, ih]
    | some g =>
      by_cases hg : g.genotype = "--" <;>
        simp [extractLoop, h, List.countP_cons, foundPred, hg, ih]

theorem extractLoop_noCall (lookup : String → Option GenomeVariant) (es : List SNPEntry) :
    (extractLoop lookup es).2.2.2 = es.countP (noCallPred lookup) := by
  induction es with
  | nil => rfl
  | cons e rest ih =>
    cases h : lookup (jsToLower e.rsid) with
    | none => simp [extractLoop, h, List.countP_cons, noCallPred, ih]
    | some g =>
      by_cases hg : g.genotype = "--" <;>
        simp [extractLoop, h, List.countP_cons, noCallPred, hg, ih]

theorem extractVariants_variants (now : String) (pr : ParseResult) (sl : SNPList)
    (cf : Option (List SNPCategory)) :
    (extractVariants now pr sl cf).variants =
      (filteredVariants sl cf).filterMap
        (fun e => (createGenomeLookup pr.variants (jsToLower e.rsid)).map (mkMatched e)) := by
  simp [extractVariants, extractLoop_matched]

theorem extractVariants_missing (now : String) (pr : ParseResult) (sl : SNPList)
    (cf : Option (List SNPCategory)) :
    (extractVariants now pr sl cf).missing =
      ((filteredVariants sl cf).filter
        (fun e => (createGenomeLookup pr.variants (jsToLower e.rsid)).isNone)).map mkMissing := by
  simp [extractVariants, extractLoop_missing]

theorem extractVariants_summary (now : String) (pr : ParseResult) (sl : SNPList)
    (cf : Option (List SNPCategory)) :
    (extractVariants now pr sl cf).summary =
      { found := (filteredVariants sl cf).countP (foundPred (createGenomeLookup pr.variants))
        noCall := (filteredVariants sl cf).countP (noCallPred (createGenomeLookup pr.variants))
        missing := ((filteredVariants sl cf).filter
          (fun e => (createGenomeLookup pr.variants (jsToLower e.rsid)).isNone)).length
        total := (filteredVariants sl cf).length } := by
  simp [extractVariants, extractLoop_found, extractLoop_noCall, extractLoop_missing]

/-- Length of a `filterMap` through an `Option.map`: one output per present
lookup. -/
theorem length_filterMap_isSome {α β γ : Type} (l : List α) (f : α → Option β) (g : α → β → γ) :
    (l.filterMap (fun a => (f a).map (g a))).length = l.countP (fun a => (f a).isSome) := by
  induction l with
  | nil => rfl
  | cons a l ih => cases h : f a <;> simp [List.filterMap_cons, h, List.countP_cons, ih]

/-- The matched-list length is the number of filtered entries present in the
index. -/
theorem extractVariants_matched_length (now : String) (pr : ParseResult) (sl : SNPList)
    (cf : Option (List SNPCategory)) :
    (extractVariants now pr sl cf).variants.length =
      (filteredVariants sl cf).countP (presentPred (createGenomeLookup pr.variants)) := by
  rw [extractVariants_variants, length_filterMap_isSome]
  rfl

/-- The index update performed by one `lookup.set` call. -/
def lookupUpd (lookup : String → Option GenomeVariant) (variant : GenomeVariant) :
    String → Option GenomeVariant :=
  fun k => if k = jsToLower variant.rsid then some variant else lookup k

theorem createGenomeLookup_foldl (vs : List GenomeVariant)
    (m : String → Option GenomeVariant) (k : String) :
    (vs.foldl lookupUpd m) k =
      match vs.reverse.find? (fun v => decide (jsToLower v.rsid = k)) with
      | some w => some w
      | none => m k := by
  induction vs generalizing m with
  | nil => rfl
  | cons v vs ih =>
    rw [List.foldl_cons, ih, List.reverse_cons, List.find?_append]
    cases hfind : vs.reverse.find? (fun v => decide (jsToLower v.rsid = k)) with
    | some w => rfl
    | none =>
      by_cases hk : jsToLower v.rsid = k
      · simp [List.find?, hk, lookupUpd, Option.or]
      · simp [List.find?, hk, lookupUpd, Option.or, Ne.symm hk]

/-- `createGenomeLookup` answers queries with the LAST matching source row:
the lookup equals `find?` on the reversed variant list. -/
theorem createGenomeLookup_eq_findLast (vs : List GenomeVariant) (k : String) :
    createGenomeLookup vs k = vs.reverse.find? (fun v => decide (jsToLower v.rsid = k)) := by
  show (vs.foldl lookupUpd (fun _ => none)) k = _
  rw [createGenomeLookup_foldl]
  cases vs.reverse.find? (fun v => decide (jsToLower v.rsid = k)) <;> rfl

/-- Every category is a member of `ALL_CATEGORIES`. -/
theorem mem_ALL_CATEGORIES (c : SNPCategory) : c ∈ ALL_CATEGORIES := by
  cases c <;> simp [ALL_CATEGORIES]

/-- Bumping one category's tally raises the record's value sum by one. -/
theorem sum_map_update_one (f : SNPCategory → Nat) (c : SNPCategory) :
    (ALL_CATEGORIES.map (fun x => if x = c then f x + 1 else f x)).sum =
      (ALL_CATEGORIES.map f).sum + 1 := by
  cases c <;> simp [ALL_CATEGORIES] <;> omega

/-- The preview's `total` is the count of catalog entries that pass the
category filter and whose rsid is in the index. -/
theorem estimateFold_sum (lookup : String → Option GenomeVariant)
    (categories : List SNPCategory) (es : List SNPEntry) :
    (ALL_CATEGORIES.map (estimateFold lookup categories es)).sum =
      es.countP (fun e => decide (e.category ∈ categories) && presentPred lookup e) := by
  induction es with
  | nil => simp [estimateFold, ALL_CATEGORIES]
  | cons e rest ih =>
    by_cases hc : e.category ∈ categories
    · by_cases hp : (lookup (jsToLower e.rsid)).isSome
      · rw [show estimateFold lookup categories (e :: rest) =
            fun c => if c = e.category then estimateFold lookup categories rest c + 1
              else estimateFold lookup categories rest c by
            simp [estimateFold, hc, hp]]
        rw [sum_map_update_one, ih]
        simp [List.countP_cons, presentPred, hc, hp]
      · rw [show estimateFold lookup categories (e :: rest) =
            estimateFold lookup categories rest by simp [estimateFold, hc, hp]]
        rw [ih]
        simp [List.countP_cons, presentPred, hc, hp]
    · rw [show estimateFold lookup categories (e :: rest) =
          estimateFold lookup categories rest by simp [estimateFold, hc]]
      rw [ih]
      simp [List.countP_cons, hc]

theorem estimateMatches_total (pr : ParseResult) (sl : SNPList)
    (cf : Option (List SNPCategory)) :
    (estimateMatches pr sl cf).total =
      sl.variants.countP
        (fun e => decide (e.category ∈ cf.getD ALL_CATEGORIES) &&
          presentPred (createGenomeLookup pr.variants) e) := by
  simp [estimateMatches, estimateFold_sum]

/-- Present entries split into found and no-call ones. -/
theorem countP_present_split (lookup : String → Option GenomeVariant) (es : List SNPEntry) :
    es.countP (presentPred lookup) =
      es.countP (foundPred lookup) + es.countP (noCallPred lookup) := by
  induction es with
  | nil => rfl
  | cons e rest ih =>
    rw [List.countP_cons, List.countP_cons, List.countP_cons]
    cases h : lookup (jsToLower e.rsid) with
    | none => simp [presentPred, foundPred, noCallPred, h, ih]
    | some g =>
      by_cases hg : g.genotype = "--" <;>
        simp [presentPred, foundPred, noCallPred, h, hg, ih] <;> omega

/-! ## Claim theorems -/

/-- C1.  `extractVariants` first restricts the catalog to the requested
categories (all entries when the filter is unset) and then classifies every
filtered entry by the case-insensitive rsid lookup: an absent rsid yields an
unmatched record with reason `not-in-file`; a present rsid with genotype
`"--"` a matched record with status `no-call`; any other present rsid a
matched record with status `found`. -/
theorem extractVariants_filters_then_classifies (now : String) (pr : ParseResult)
    (sl : SNPList) (cf : Option (List SNPCategory)) :
    (extractVariants now pr sl cf).variants =
      ((match cf with
        | some categories => sl.variants.filter (fun v => decide (v.category ∈ categories))
        | none => sl.variants : List SNPEntry)).filterMap
        (fun e =>
          match createGenomeLookup pr.variants (jsToLower e.rsid) with
          | none => none
          | some g =>
            some { rsid := e.rsid
                   gene := e.gene
                   genotype := g.genotype
                   category := e.category
                   annot := e.annot
                   sources := e.sources
                   status := if g.genotype = "--" then "no-call" else "found" }) ∧
    (extractVariants now pr sl cf).missing =
      (((match cf with
        | some categories => sl.variants.filter (fun v => decide (v.category ∈ categories))
        | none => sl.variants : List SNPEntry)).filter
          (fun e => (createGenomeLookup pr.variants (jsToLower e.rsid)).isNone)).map
        (fun e => { rsid := e.rsid, gene := e.gene, category := e.category,
                    reason := "not-in-file" }) := by
  have hfil : ((match cf with
      | some categories => sl.variants.filter (fun v => decide (v.category ∈ categories))
      | none => sl.variants : List SNPEntry)) = filteredVariants sl cf := by
    cases cf <;> rfl
  constructor
  · rw [extractVariants_variants, hfil]
    apply List.filterMap_congr
    intro e _
    cases createGenomeLookup pr.variants (jsToLower e.rsid) <;> rfl
  · rw [extractVariants_missing, hfil]
    rfl

/-- C3.  With no category filter, when none of the catalog entries present in
the file is a no-call, the summary reports `found = K`, `missing = M - K`,
`noCall = 0` and `total = M`, where `M` is the catalog size and `K` the
number of catalog entries whose rsid the file contains
(case-insensitively). -/
theorem extractVariants_summary_counts (now : String) (pr : ParseResult) (sl : SNPList)
    (h : ∀ e ∈ sl.variants, noCallPred (createGenomeLookup pr.variants) e = false) :
    (extractVariants now pr sl none).summary =
      { found := sl.variants.countP (presentPred (createGenomeLookup pr.variants))
        noCall := 0
        missing := sl.variants.length -
          sl.variants.countP (presentPred (createGenomeLookup pr.variants))
        total := sl.variants.length } := by
  rw [extractVariants_summary]
  have hfil : filteredVariants sl none = sl.variants := rfl
  rw [hfil]
  have hfound : sl.variants.countP (foundPred (createGenomeLookup pr.variants)) =
      sl.variants.countP (presentPred (createGenomeLookup pr.variants)) := by
    apply List.countP_congr
    intro e he
    have hnc := h e he
    constructor
    · intro hf
      cases hlk : createGenomeLookup pr.variants (jsToLower e.rsid) with
      | none => simp [foundPred, hlk] at hf
      | some g => simp [presentPred, hlk]
    · intro hp
      cases hlk : createGenomeLookup pr.variants (jsToLower e.rsid) with
      | none => simp [presentPred, hlk] at hp
      | some g =>
        simp only [noCallPred, hlk] at hnc
        simp [foundPred, hlk, hnc]
  have hnc0 : sl.variants.countP (noCallPred (createGenomeLookup pr.variants)) = 0 := by
    rw [List.countP_eq_zero]
    intro e he
    simp [h e he]
  have hsplit := countP_present_split (createGenomeLookup pr.variants) sl.variants
  have hmiss : (sl.variants.filter
      (fun e => (createGenomeLookup pr.variants (jsToLower e.rsid)).isNone)).length =
      sl.variants.length -
        sl.variants.countP (presentPred (createGenomeLookup pr.variants)) := by
    rw [← List.countP_eq_length_filter]
    have hlen := List.length_eq_countP_add_countP
      (presentPred (createGenomeLookup pr.variants)) sl.variants
    have hcongr : sl.variants.countP
        (fun e => (createGenomeLookup pr.variants (jsToLower e.rsid)).isNone) =
        sl.variants.countP
          (fun e => decide ¬ (presentPred (createGenomeLookup pr.variants) e = true)) := by
      apply List.countP_congr
      intro e _
      cases hlk : createGenomeLookup pr.variants (jsToLower e.rsid) <;>
        simp [presentPred, hlk]
    rw [hcongr]
    omega
  rw [hfound, hnc0, hmiss]

/-- Witness for C3 at a concrete genome/catalog pair: two catalog entries,
one present (genotype `"AA"`), one absent. -/
theorem extractVariants_summary_counts_witness :
    (∀ e ∈ (SNPList.mk "v1" "2025-01-01" 2
        [⟨"rs1", "G1", .methylation, "a1", []⟩,
         ⟨"rs2", "G2", .other, "a2", []⟩]).variants,
      noCallPred (createGenomeLookup [⟨"rs1", "1", 100, "AA"⟩]) e = false) ∧
    (extractVariants "2025-01-02T00:00:00Z"
        ⟨.ancestry, [⟨"rs1", "1", 100, "AA"⟩], []⟩
        (SNPList.mk "v1" "2025-01-01" 2
          [⟨"rs1", "G1", .methylation, "a1", []⟩,
           ⟨"rs2", "G2", .other, "a2", []⟩]) none).summary =
      { found := 1, noCall := 0, missing := 1, total := 2 } := by
  constructor
  · decide
  · rw [extractVariants_summary_counts "2025-01-02T00:00:00Z"
      ⟨.ancestry, [⟨"rs1", "1", 100, "AA"⟩], []⟩
      (SNPList.mk "v1" "2025-01-01" 2
        [⟨"rs1", "G1", .methylation, "a1", []⟩,
         ⟨"rs2", "G2", .other, "a2", []⟩]) (by decide)]
    decide

/-- C6.  The rsid index is case-insensitive and last-wins: a query answers
with `find?` over the REVERSED variant list (the latest occurrence of a
lowercased rsid), and the extractor's matched records therefore carry the
later occurrence's genotype. -/
theorem genomeLookup_case_insensitive_last_wins :
    (∀ (vs : List GenomeVariant) (k : String),
      createGenomeLookup vs k =
        vs.reverse.find? (fun v => decide (jsToLower v.rsid = k))) ∧
    (∀ (now : String) (pr : ParseResult) (sl : SNPList) (cf : Option (List SNPCategory)),
      (extractVariants now pr sl cf).variants =
        (filteredVariants sl cf).filterMap
          (fun e =>
            (pr.variants.reverse.find?
              (fun v => decide (jsToLower v.rsid = jsToLower e.rsid))).map (mkMatched e))) := by
  refine ⟨createGenomeLookup_eq_findLast, ?_⟩
  intro now pr sl cf
  rw [extractVariants_variants]
  apply List.filterMap_congr
  intro e _
  rw [createGenomeLookup_eq_findLast]

/-- C8.  Category-filter monotonicity: if every category of `f1` is also in
`f2`, the matched-variant count under `f2` is at least the one under `f1`
(in particular for any strict superset). -/
theorem categoryFilter_monotone (now : String) (pr : ParseResult) (sl : SNPList)
    (f1 f2 : List SNPCategory) (h : ∀ c ∈ f1, c ∈ f2) :
    (extractVariants now pr sl (some f1)).variants.length ≤
      (extractVariants now pr sl (some f2)).variants.length := by
  rw [extractVariants_matched_length, extractVariants_matched_length]
  show (sl.variants.filter (fun v => decide (v.category ∈ f1))).countP _ ≤
    (sl.variants.filter (fun v => decide (v.category ∈ f2))).countP _
  rw [List.countP_filter, List.countP_filter]
  apply List.countP_mono_left
  intro e _ he
  simp only [Bool.and_eq_true, decide_eq_true_eq] at he ⊢
  exact ⟨he.1, h _ he.2⟩

/-- Witness for C8 at a strict superset pair of filters. -/
theorem categoryFilter_monotone_witness :
    (∀ c ∈ [SNPCategory.methylation], c ∈ [SNPCategory.methylation, SNPCategory.other]) ∧
    (extractVariants "t" ⟨.ancestry, [⟨"rs9", "1", 5, "GG"⟩], []⟩
        (SNPList.mk "v" "d" 2
          [⟨"rs1", "G1", .methylation, "a", []⟩, ⟨"rs9", "G9", .other, "a", []⟩])
        (some [SNPCategory.methylation])).variants.length ≤
      (extractVariants "t" ⟨.ancestry, [⟨"rs9", "1", 5, "GG"⟩], []⟩
        (SNPList.mk "v" "d" 2
          [⟨"rs1", "G1", .methylation, "a", []⟩, ⟨"rs9", "G9", .other, "a", []⟩])
        (some [SNPCategory.methylation, SNPCategory.other])).variants.length :=
  ⟨by decide,
   categoryFilter_monotone "t" ⟨.ancestry, [⟨"rs9", "1", 5, "GG"⟩], []⟩
     (SNPList.mk "v" "d" 2
       [⟨"rs1", "G1", .methylation, "a", []⟩, ⟨"rs9", "G9", .other, "a", []⟩])
     [SNPCategory.methylation] [SNPCategory.methylation, SNPCategory.other] (by decide)⟩

/-- C10.  Preview/extraction agreement: `estimateMatches` reports as `total`
exactly the number of matched variants `extractVariants` produces on the same
inputs, which in turn is the summary's `found + noCall`. -/
theorem estimateMatches_agrees_with_extract (now : String) (pr : ParseResult)
    (sl : SNPList) (cf : Option (List SNPCategory)) :
    (estimateMatches pr sl cf).total = (extractVariants now pr sl cf).variants.length ∧
    (extractVariants now pr sl cf).variants.length =
      (extractVariants now pr sl cf).summary.found +
        (extractVariants now pr sl cf).summary.noCall := by
  constructor
  · rw [estimateMatches_total, extractVariants_matched_length]
    cases cf with
    | none =>
      show sl.variants.countP _ = sl.variants.countP _
      apply List.countP_congr
      intro e _
      simp [mem_ALL_CATEGORIES]
    | some f =>
      show sl.variants.countP _ =
        (sl.variants.filter (fun v => decide (v.category ∈ f))).countP _
      rw [List.countP_filter]
      apply List.countP_congr
      intro e _
      simp [Bool.and_comm]
  · rw [extractVariants_matched_length, extractVariants_summary]
    exact countP_present_split _ _

/-- C2 (code bug).  When the background revalidation of a restored stored key
comes back as a network failure (`checkLicense` returns
`{ valid: false, error: 'network_error' }`), the `init` callback runs
`clearToken` and wipes the stored key and all session fields — the
previously-established session is NOT preserved, contradicting the spec's
"a network license error must preserve any previously-established valid
session". -/
theorem networkError_clears_restored_session :
    networkErrorResult.valid = false ∧
    networkErrorResult.error = some "network_error" ∧
    initRevalidate "KEY12345" (restoredState "KEY12345") networkErrorResult =
      clearToken (restoredState "KEY12345") ∧
    (initRevalidate "KEY12345" (restoredState "KEY12345") networkErrorResult).storedToken
      = none ∧
    (restoredState "KEY12345").storedToken = some "KEY12345" := by
  decide

/-- C7.  Serialization is deterministic: the serializer reads no clock, so
its output is independent of the wall-clock at serialize time, and the only
time-varying field — the extraction timestamp — is the `now` captured once
when `extractVariants` creates the result. -/
theorem serializer_deterministic :
    (∀ (t1 t2 : String) (result : ExtractionResult) (format : OutputFormat),
      serializeAt t1 result format = serializeAt t2 result format) ∧
    (∀ (now : String) (pr : ParseResult) (sl : SNPList) (cf : Option (List SNPCategory)),
      (extractVariants now pr sl cf).metadata.date = now) :=
  ⟨fun _ _ _ _ => rfl, fun _ _ _ _ => rfl⟩

/-- A line the ancestry parser's loop skips without attempting a parse:
blank, whitespace-only, `#` comment, or the `rsid\t…` column header. -/
def isSkippedLine (line : String) : Bool :=
  line == "" || jsTrim line == "" || jsStartsWith (jsTrim line) "#" ||
    jsStartsWith (jsToLower (jsTrim line)) "rsid\t"

/-- A nonempty string has positive length. -/
theorem length_pos_of_ne_empty (s : String) (h : s ≠ "") : 0 < s.length := by
  rcases Nat.eq_zero_or_pos s.length with h0 | hpos
  · exact absurd (String.ext (List.length_eq_zero.mp h0)) h
  · exact hpos

/-- Full characterization of the parser's line loop: the collected variants
are the successful parses of the non-skipped lines, and a warning (with
1-based line number and content truncated to 100 characters) is recorded for
exactly those non-skipped lines that fail to parse and do not begin with
`rsid`. -/
theorem scanLines_eq (ls : List (Nat × String)) :
    scanLines ls =
      (ls.filterMap
        (fun p => if isSkippedLine p.2 then none else parseDataLine (jsTrim p.2)),
       (ls.filter
         (fun p => !(isSkippedLine p.2) && (parseDataLine (jsTrim p.2)).isNone &&
           !(jsStartsWith (jsTrim p.2) "rsid"))).map
         (fun p => { message := "Failed to parse line", line := p.1 + 1,
                     details := jsTake (jsTrim p.2) 100 })) := by
  induction ls with
  | nil => rfl
  | cons p rest ih =>
    obtain ⟨i, line⟩ := p
    by_cases h1 : line = ""
    · simp [scanLines, isSkippedLine, h1, ih, List.filterMap_cons, List.filter_cons]
    · by_cases h2 : jsTrim line = ""
      · simp [scanLines, isSkippedLine, h1, h2, ih, List.filterMap_cons, List.filter_cons]
      · by_cases h3 : jsStartsWith (jsTrim line) "#" = true
        · simp [scanLines, isSkippedLine, h1, h2, h3, ih, List.filterMap_cons,
            List.filter_cons]
        · by_cases h4 : jsStartsWith (jsToLower (jsTrim line)) "rsid\t" = true
          · simp [scanLines, isSkippedLine, h1, h2, h3, h4, ih, List.filterMap_cons,
              List.filter_cons]
          · cases hp : parseDataLine (jsTrim line) with
            | some v =>
              simp [scanLines, isSkippedLine, h1, h2, h3, h4, hp, ih,
                List.filterMap_cons, List.filter_cons]
            | none =>
              by_cases h5 : jsStartsWith (jsTrim line) "rsid" = true
              · simp [scanLines, isSkippedLine, h1, h2, h3, h4, hp, h5, ih,
                  List.filterMap_cons, List.filter_cons]
              · have hlen : 0 < (jsTrim line).length := length_pos_of_ne_empty _ h2
                simp [scanLines, isSkippedLine, h1, h2, h3, h4, hp, h5, ih, hlen,
                  List.filterMap_cons, List.filter_cons]

/-- C5 counterexample.  `"rsidX"` is a data line by the parser's own
classification (not blank, not a comment, not the `rsid\t…` header), it fails
to parse — and yet the parse succeeds with an EMPTY warning list, because the
warning branch silently drops unparsable lines beginning with `rsid`. -/
theorem parseAncestry_silent_malformed_line :
    isSkippedLine "rsidX" = false ∧
    parseDataLine (jsTrim "rsidX") = none ∧
    parseAncestry "rsidX\nrs1\t1\t100\tA\tA" =
      .ok { format := .ancestry
            variants := [{ rsid := "rs1", chromosome := "1", position := 100,
                           genotype := "AA" }]
            warnings := [] } := by
  decide

/-- C5 (amended).  The ancestry parser throws its fatal error exactly when
scanning all lines yields zero valid variants (so one valid data line
guarantees a parse result); a malformed data line is skipped without aborting
and is recorded as a warning — with line number and truncated content —
unless it begins with `rsid`, in which case it is skipped silently. -/
theorem parseAncestry_fatal_iff_no_variants (content : String) :
    ((∃ e, parseAncestry content = .error e) ↔
      (scanLines (jsSplitLines content).enum).1 = []) ∧
    (scanLines (jsSplitLines content).enum).1 =
      (jsSplitLines content).enum.filterMap
        (fun p => if isSkippedLine p.2 then none else parseDataLine (jsTrim p.2)) ∧
    (scanLines (jsSplitLines content).enum).2 =
      ((jsSplitLines content).enum.filter
        (fun p => !(isSkippedLine p.2) && (parseDataLine (jsTrim p.2)).isNone &&
          !(jsStartsWith (jsTrim p.2) "rsid"))).map
        (fun p => { message := "Failed to parse line", line := p.1 + 1,
                    details := jsTake (jsTrim p.2) 100 }) ∧
    ((scanLines (jsSplitLines content).enum).1 ≠ [] →
      parseAncestry content =
        .ok { format := .ancestry
              variants := (scanLines (jsSplitLines content).enum).1
              warnings :=
                if (scanLines (jsSplitLines content).enum).2 = [] then []
                else [warningMessage (scanLines (jsSplitLines content).enum).2.length] }) := by
  refine ⟨⟨?_, ?_⟩, congrArg Prod.fst (scanLines_eq _), congrArg Prod.snd (scanLines_eq _), ?_⟩
  · rintro ⟨e, he⟩
    by_contra hne
    simp [parseAncestry, hne] at he
  · intro h0
    exact ⟨{ message := "No valid variants found in file. Please check the file format." },
      by simp [parseAncestry, h0]⟩
  · intro hne
    simp [parseAncestry, hne]

/-- Witness for the amended C5 at a one-line valid input. -/
theorem parseAncestry_fatal_iff_no_variants_witness :
    (scanLines (jsSplitLines "rs1\t1\t100\tA\tA").enum).1 ≠ [] ∧
    parseAncestry "rs1\t1\t100\tA\tA" =
      .ok { format := .ancestry
            variants := (scanLines (jsSplitLines "rs1\t1\t100\tA\tA").enum).1
            warnings :=
              if (scanLines (jsSplitLines "rs1\t1\t100\tA\tA").enum).2 = [] then []
              else [warningMessage
                (scanLines (jsSplitLines "rs1\t1\t100\tA\tA").enum).2.length] } :=
  ⟨by decide, (parseAncestry_fatal_iff_no_variants "rs1\t1\t100\tA\tA").2.2.2 (by decide)⟩

/-- Every emitted variant's chromosome and genotype come from
`normalizeChromosome` / `combineAlleles` applied to the line's second,
fourth and fifth tab-separated fields. -/
theorem parseDataLine_fields (line : String) (v : GenomeVariant)
    (h : parseDataLine line = some v) :
    v.chromosome = normalizeChromosome ((jsSplit '\t' line).getD 1 "") ∧
    combineAlleles ((jsSplit '\t' line).getD 3 "") ((jsSplit '\t' line).getD 4 "") =
      some v.genotype := by
  unfold parseDataLine at h
  split at h
  case h_2 => exact absurd h (by simp)
  case h_1 rsid chromosome positionStr allele1 allele2 rest heq =>
    rw [heq]
    split at h
    · exact absurd h (by simp)
    · split at h
      · exact absurd h (by simp)
      · split at h
        · exact absurd h (by simp)
        · split at h
          · exact absurd h (by simp)
          · split at h
            · exact absurd h (by simp)
            · split at h
              · exact absurd h (by simp)
              case _ genotype hca =>
                injection h with hv
                subst hv
                exact ⟨rfl, by simpa using hca⟩

/-- C4.  AncestryDNA normalization: numeric chromosome codes 23/24/25/26
become X/Y/MT/MT; an allele pair with `0` or `-` on either side yields the
`--` no-call sentinel; D/I pairs concatenate in the given order with no
alphabetic reordering; and every emitted variant is built through exactly
these two normalizers. -/
theorem ancestry_normalization :
    (normalizeChromosome "23" = "X" ∧ normalizeChromosome "24" = "Y" ∧
     normalizeChromosome "25" = "MT" ∧ normalizeChromosome "26" = "MT") ∧
    (∀ allele1 allele2 : String,
      allele1 = "0" ∨ allele1 = "-" ∨ allele2 = "0" ∨ allele2 = "-" →
      combineAlleles allele1 allele2 = some "--") ∧
    (∀ allele1 allele2 : String,
      allele1 = "D" ∨ allele1 = "I" → allele2 = "D" ∨ allele2 = "I" →
      combineAlleles allele1 allele2 = some (allele1 ++ allele2)) ∧
    (∀ (line : String) (v : GenomeVariant), parseDataLine line = some v →
      v.chromosome = normalizeChromosome ((jsSplit '\t' line).getD 1 "") ∧
      combineAlleles ((jsSplit '\t' line).getD 3 "") ((jsSplit '\t' line).getD 4 "") =
        some v.genotype) := by
  refine ⟨by decide, ?_, ?_, parseDataLine_fields⟩
  · intro allele1 allele2 h
    rcases h with rfl | rfl | rfl | rfl
    · have hc : jsToUpper (jsTrim "0") = "0" := by decide
      simp [combineAlleles, hc]
    · have hc : jsToUpper (jsTrim "-") = "-" := by decide
      simp [combineAlleles, hc]
    · have hc : jsToUpper (jsTrim "0") = "0" := by decide
      simp [combineAlleles, hc]
    · have hc : jsToUpper (jsTrim "-") = "-" := by decide
      simp [combineAlleles, hc]
  · intro allele1 allele2 h1 h2
    rcases h1 with rfl | rfl <;> rcases h2 with rfl | rfl <;> decide

/-- Witness for C4 on concrete alleles and a concrete data line with
chromosome code 23. -/
theorem ancestry_normalization_witness :
    combineAlleles "0" "G" = some "--" ∧
    combineAlleles "D" "I" = some ("D" ++ "I") ∧
    ({ rsid := "rs1", chromosome := "X", position := 100,
       genotype := "AA" } : GenomeVariant).chromosome =
      normalizeChromosome ((jsSplit '\t' "rs1\t23\t100\tA\tA").getD 1 "") ∧
    combineAlleles ((jsSplit '\t' "rs1\t23\t100\tA\tA").getD 3 "")
      ((jsSplit '\t' "rs1\t23\t100\tA\tA").getD 4 "") =
      some ({ rsid := "rs1", chromosome := "X", position := 100,
              genotype := "AA" } : GenomeVariant).genotype :=
  ⟨ancestry_normalization.2.1 "0" "G" (Or.inl rfl),
   ancestry_normalization.2.2.1 "D" "I" (Or.inl rfl) (Or.inr rfl),
   (ancestry_normalization.2.2.2 "rs1\t23\t100\tA\tA" _ (by decide)).1,
   (ancestry_normalization.2.2.2 "rs1\t23\t100\tA\tA" _ (by decide)).2⟩

/-! ## Output length accounting

Literal lengths of the serializer's fixed fragments, and closed-form length
formulas for the three emitters, used to compare output sizes. -/

@[simp] theorem litLen_nl : ("\n" : String).length = 1 := rfl

@[simp] theorem litLen_seq_rsid : ("  - rsid: " : String).length = 10 := rfl

@[simp] theorem litLen_gene : ("    gene: " : String).length = 10 := rfl

@[simp] theorem litLen_genotype : ("    genotype: " : String).length = 14 := rfl

@[simp] theorem litLen_category : ("    category: " : String).length = 14 := rfl

@[simp] theorem litLen_annot : ("    annotation: " : String).length = 16 := rfl

@[simp] theorem litLen_status : ("    status: no-call\n" : String).length = 20 := rfl

@[simp] theorem litLen_reason : ("    reason: " : String).length = 12 := rfl

@[simp] theorem litLen_cats_empty : ("  categories_included: []\n" : String).length = 26 := rfl

@[simp] theorem litLen_cats : ("  categories_included:\n" : String).length = 23 := rfl

@[simp] theorem litLen_dash : ("    - " : String).length = 6 := rfl

@[simp] theorem litLen_metadata : ("metadata:\n" : String).length = 10 := rfl

@[simp] theorem litLen_tool : ("  tool: " : String).length = 8 := rfl

@[simp] theorem litLen_version : ("  version: " : String).length = 11 := rfl

@[simp] theorem litLen_extraction_date : ("  extraction_date: " : String).length = 19 := rfl

@[simp] theorem litLen_source_format : ("  source_format: " : String).length = 17 := rfl

@[simp] theorem litLen_svc : ("  source_variant_count: " : String).length = 24 := rfl

@[simp] theorem litLen_slv : ("  snp_list_version: " : String).length = 20 := rfl

@[simp] theorem litLen_disclaimer : ("  disclaimer: " : String).length = 14 := rfl

@[simp] theorem litLen_summary : ("summary:\n" : String).length = 9 := rfl

@[simp] theorem litLen_found : ("  variants_found: " : String).length = 18 := rfl

@[simp] theorem litLen_nocall : ("  variants_no_call: " : String).length = 20 := rfl

@[simp] theorem litLen_vmissing : ("  variants_missing: " : String).length = 20 := rfl

@[simp] theorem litLen_total : ("  total_in_snp_list: " : String).length = 21 := rfl

@[simp] theorem litLen_date : ("  date: " : String).length = 8 := rfl

@[simp] theorem litLen_format : ("  format: " : String).length = 10 := rfl

@[simp] theorem litLen_missing_sec : ("missing:\n" : String).length = 9 := rfl

@[simp] theorem litLen_item : ("  - " : String).length = 4 := rfl

@[simp] theorem litLen_missing_vars : ("missing_variants:\n" : String).length = 18 := rfl

@[simp] theorem litLen_variants_key : ("variants" : String).length = 8 := rfl

@[simp] theorem litLen_empty_list : (": []\n" : String).length = 5 := rfl

@[simp] theorem litLen_colon_nl : (":\n" : String).length = 2 := rfl

@[simp] theorem litLen_hash : ("# " : String).length = 2 := rfl

@[simp] theorem litLen_v : (" v" : String).length = 2 := rfl

@[simp] theorem litLen_pipe : (" | " : String).length = 3 := rfl

@[simp] theorem litLen_csv_header : ("# rsid,gene,genotype" : String).length = 20 := rfl

@[simp] theorem litLen_comma : ("," : String).length = 1 := rfl

@[simp] theorem litLen_missing_comment : ("# missing: " : String).length = 11 := rfl

@[simp] theorem litLen_compact_disclaimer : COMPACT_DISCLAIMER.length = 54 := rfl

@[simp] theorem litLen_meta_tool : ("metadata:\n  tool: " : String).length = 18 := rfl

@[simp] theorem litLen_summary_found :
    ("summary:\n  variants_found: " : String).length = 27 := rfl

@[simp] theorem strConcat_length (l : List String) :
    (strConcat l).length = (l.map String.length).sum := by
  induction l with
  | nil => rfl
  | cons x xs ih => simp [strConcat, String.length_append, ih]

theorem jsJoin_length (sep : String) :
    ∀ l : List String, l ≠ [] →
      (jsJoin sep l).length = (l.map String.length).sum + sep.length * (l.length - 1)
  | [x], _ => by simp [jsJoin]
  | x :: y :: xs, _ => by
    have ih := jsJoin_length sep (y :: xs) (by simp)
    simp only [jsJoin, String.length_append, ih, List.map_cons, List.sum_cons,
      List.length_cons, Nat.add_sub_cancel]
    ring

/-- Summing the lengths of emitted fragments that are an item-dependent part
plus a constant overhead. -/
theorem sum_length_map {α : Type} (l : List α) (f : α → String) (g : α → Nat) (c : Nat)
    (h : ∀ a, (f a).length = g a + c) :
    (l.map (String.length ∘ f)).sum = (l.map g).sum + c * l.length := by
  induction l with
  | nil => simp
  | cons a l ih =>
    simp only [List.map_cons, List.sum_cons, ih, Function.comp_apply, h, List.length_cons]
    ring

/-- Length of a separator join, in the always-applicable cons form. -/
theorem jsJoin_cons_length (sep x : String) (xs : List String) :
    (jsJoin sep (x :: xs)).length =
      x.length + (xs.map String.length).sum + sep.length * xs.length := by
  induction xs generalizing x with
  | nil => simp [jsJoin]
  | cons y ys ih =>
    simp only [jsJoin, String.length_append, ih y, List.map_cons, List.sum_cons,
      List.length_cons]
    ring

/-- The shared rsid+gene+genotype payload length of a matched variant. -/
def mvCore (v : MatchedVariant) : Nat :=
  v.rsid.length + v.gene.length + v.genotype.length

theorem compactVariantBlock_length (v : MatchedVariant) :
    (compactVariantBlock v).length = mvCore v + 37 := by
  simp [compactVariantBlock, String.length_append, mvCore]
  omega

theorem detailedVariantBlock_length (v : MatchedVariant) :
    (detailedVariantBlock v).length =
      mvCore v + (categoryName v.category).length + v.annot.length +
        (if v.status = "no-call" then 20 else 0) + 69 := by
  by_cases h : v.status = "no-call" <;>
    simp [detailedVariantBlock, h, String.length_append, mvCore] <;> omega

theorem detailedMissingBlock_length (m : MissingVariant) :
    (detailedMissingBlock m).length =
      m.rsid.length + m.gene.length + (categoryName m.category).length +
        m.reason.length + 50 := by
  simp [detailedMissingBlock, String.length_append]
  omega

/-- The per-variant payload the detailed format adds on top of the shared
core: category, annotation and the optional no-call status line. -/
def mvDetExtra (v : MatchedVariant) : Nat :=
  mvCore v + (categoryName v.category).length + v.annot.length +
    (if v.status = "no-call" then 20 else 0)

/-- The per-entry payload of a detailed `missing_variants` block. -/
def msDetCore (m : MissingVariant) : Nat :=
  m.rsid.length + m.gene.length + (categoryName m.category).length + m.reason.length

theorem compactMeta_length (md : ExtractionMetadata) :
    (compactMeta md).length = md.tool.length + md.version.length +
      (formatDateOnly md.date).length + (formatName md.sourceFormat).length + 120 := by
  simp [compactMeta, String.length_append]
  omega

theorem detailedMeta_length (md : ExtractionMetadata) :
    (detailedMeta md).length = md.tool.length + md.version.length + md.date.length +
      (formatName md.sourceFormat).length + (toString md.sourceVariantCount).length +
      md.snpListVersion.length + (categoriesBlock md.categoriesIncluded).length +
      md.disclaimer.length + 130 := by
  simp [detailedMeta, String.length_append]
  omega

theorem summaryBlock_length (s : ExtractionSummary) :
    (summaryBlock s).length = (toString s.found).length + (toString s.noCall).length +
      (toString s.missing).length + (toString s.total).length + 92 := by
  simp [summaryBlock, String.length_append]
  omega

theorem listSection_length (key : String) (blocks : List String) (h : blocks ≠ []) :
    (listSection key blocks).length =
      key.length + 2 + (blocks.map String.length).sum := by
  simp [listSection, h, String.length_append]

theorem formatDateOnly_length_le (s : String) :
    (formatDateOnly s).length ≤ s.length := by
  show (s.data.take 10).length ≤ s.data.length
  rw [List.length_take]
  exact Nat.min_le_right _ _

theorem toCompactYAML_length (r : ExtractionResult) (hv : r.variants ≠ []) :
    (toCompactYAML r).length =
      r.metadata.tool.length + r.metadata.version.length +
        (formatDateOnly r.metadata.date).length +
        (formatName r.metadata.sourceFormat).length +
        (r.variants.map mvCore).sum + 37 * r.variants.length + 130 +
        (if r.missing = [] then 0
         else 9 + (r.missing.map (fun m => m.rsid.length)).sum + 5 * r.missing.length) := by
  have hb : r.variants.map compactVariantBlock ≠ [] := by simpa using hv
  have hsec := listSection_length "variants" (r.variants.map compactVariantBlock) hb
  have hsum := sum_length_map r.variants compactVariantBlock mvCore 37
    compactVariantBlock_length
  by_cases hm : r.missing = []
  · simp [toCompactYAML, hm, String.length_append, compactMeta_length, hsec, hsum]
    omega
  · have hms := sum_length_map r.missing (fun m => "  - " ++ m.rsid ++ "\n")
      (fun m => m.rsid.length) 5
      (fun m => by simp [String.length_append]; omega)
    simp [toCompactYAML, hm, String.length_append, compactMeta_length, hsec, hsum, hms]
    omega

theorem toMinimalCSV_length (r : ExtractionResult) :
    (toMinimalCSV r).length =
      r.metadata.tool.length + r.metadata.version.length +
        (formatDateOnly r.metadata.date).length +
        (r.variants.map mvCore).sum + 3 * r.variants.length + 86 +
        (if r.missing = [] then 0
         else (r.missing.map (fun m => m.rsid.length)).sum + r.missing.length + 11) := by
  have hline : ∀ v : MatchedVariant,
      (v.rsid ++ "," ++ v.gene ++ "," ++ v.genotype).length = mvCore v + 2 := by
    intro v
    simp [mvCore, String.length_append]
    omega
  have hsum := sum_length_map r.variants
    (fun v => v.rsid ++ "," ++ v.gene ++ "," ++ v.genotype) mvCore 2 hline
  by_cases hm : r.missing = []
  · simp [toMinimalCSV, hm, jsJoin_cons_length, String.length_append, hsum]
    omega
  · obtain ⟨m0, ms, hcons⟩ := List.exists_cons_of_ne_nil hm
    have hrs := sum_length_map ms (fun m => m.rsid)
      (fun m => m.rsid.length) 0 (fun m => by simp)
    simp [toMinimalCSV, hm, hcons, jsJoin_cons_length, String.length_append, hsum, hrs]
    omega

theorem toDetailedYAML_length (r : ExtractionResult) (hv : r.variants ≠ []) :
    (toDetailedYAML r).length =
      r.metadata.tool.length + r.metadata.version.length + r.metadata.date.length +
        (formatName r.metadata.sourceFormat).length +
        (toString r.metadata.sourceVariantCount).length +
        r.metadata.snpListVersion.length +
        (categoriesBlock r.metadata.categoriesIncluded).length +
        r.metadata.disclaimer.length +
        (toString r.summary.found).length + (toString r.summary.noCall).length +
        (toString r.summary.missing).length + (toString r.summary.total).length +
        (r.variants.map mvDetExtra).sum + 69 * r.variants.length + 232 +
        (if r.missing = [] then 0
         else 18 + (r.missing.map msDetCore).sum + 50 * r.missing.length) := by
  have hb : r.variants.map detailedVariantBlock ≠ [] := by simpa using hv
  have hsec := listSection_length "variants" (r.variants.map detailedVariantBlock) hb
  have hsum := sum_length_map r.variants detailedVariantBlock mvDetExtra 69
    (fun v => by rw [detailedVariantBlock_length]; simp [mvDetExtra])
  by_cases hm : r.missing = []
  · simp [toDetailedYAML, hm, String.length_append, detailedMeta_length,
      summaryBlock_length, hsec, hsum]
    omega
  · have hms := sum_length_map r.missing detailedMissingBlock msDetCore 50
      (fun m => by rw [detailedMissingBlock_length]; simp [msDetCore])
    simp [toDetailedYAML, hm, String.length_append, detailedMeta_length,
      summaryBlock_length, hsec, hsum, hms]
    omega

theorem minimal_lt_compact (r : ExtractionResult) (hv : r.variants ≠ []) :
    (toMinimalCSV r).length < (toCompactYAML r).length := by
  rw [toMinimalCSV_length, toCompactYAML_length r hv]
  by_cases hm : r.missing = []
  · simp [hm]
    omega
  · have hk : 0 < r.missing.length := List.length_pos.mpr hm
    simp [hm]
    omega

theorem compact_lt_detailed (r : ExtractionResult) (hv : r.variants ≠ []) :
    (toCompactYAML r).length < (toDetailedYAML r).length := by
  rw [toCompactYAML_length r hv, toDetailedYAML_length r hv]
  have hD := formatDateOnly_length_le r.metadata.date
  have hSum : (r.variants.map mvCore).sum ≤ (r.variants.map mvDetExtra).sum :=
    List.sum_le_sum (fun v _ => by
      by_cases h : v.status = "no-call" <;> simp [mvDetExtra, h] <;> omega)
  by_cases hm : r.missing = []
  · simp [hm]
    omega
  · have hSR : (r.missing.map (fun m => m.rsid.length)).sum ≤
        (r.missing.map msDetCore).sum :=
      List.sum_le_sum (fun m _ => by simp [msDetCore]; omega)
    simp [hm]
    omega

/-- C9.  For any result with at least one matched variant, the three output
encodings are strictly ordered by size:
minimal < compact < detailed. -/
theorem output_length_strictly_ordered (r : ExtractionResult) (hv : r.variants ≠ []) :
    (toYAML r .minimal).length < (toYAML r .compact).length ∧
    (toYAML r .compact).length < (toYAML r .detailed).length :=
  ⟨minimal_lt_compact r hv, compact_lt_detailed r hv⟩

/-- A concrete extraction result with one matched and one missing variant. -/
def wRes : ExtractionResult :=
  { metadata :=
      { tool := "GenomeGist"
        version := "1.0.0"
        date := "2025-01-23T12:00:00.000Z"
        sourceFormat := .ancestry
        sourceVariantCount := 5
        snpListVersion := "2025.01"
        disclaimer := DISCLAIMER
        categoriesIncluded := none }
    variants := [{ rsid := "rs1801133", gene := "MTHFR", genotype := "CT",
                   category := .methylation, annot := "C677T variant",
                   sources := ["ClinVar"], status := "found" }]
    missing := [{ rsid := "rs777777", gene := "TEST", category := .other,
                  reason := "not-in-file" }]
    summary := { found := 1, noCall := 0, missing := 1, total := 2 } }

/-- Witness for C9 at a concrete one-variant result. -/
theorem output_length_strictly_ordered_witness :
    (toYAML wRes .minimal).length < (toYAML wRes .compact).length ∧
    (toYAML wRes .compact).length < (toYAML wRes .detailed).length :=
  output_length_strictly_ordered wRes (by decide)

end GenomeGist
